import Mathlib

/-!
Verification of the lifx-controller CLI (src/main.rs) against its
specification.  The program is shallowly embedded: strings are lists of
characters, JSON values are an inductive type, the network and the
command-line parser are inputs to the model, and the set/list control flow
of `main` is a pure function producing the trace of observable events
(HTTP requests and printed lines) together with the process outcome.
-/

namespace Lifx

/-- Strings of the embedded program, as lists of characters. -/
abbrev Str := List Char

/-- Rust `char::to_ascii_lowercase`: maps A-Z to a-z, leaves all else. -/
def asciiLowerChar (c : Char) : Char :=
  if 'A' ≤ c ∧ c ≤ 'Z' then Char.ofNat (c.toNat + 32) else c

/-- Rust `str::to_ascii_lowercase` (characterwise ASCII lowering). -/
def asciiLower (s : Str) : Str := s.map asciiLowerChar

/-- Rust `str::starts_with` on our string model: `strStarts n h` holds when
`n` is a prefix of `h`. -/
def strStarts : Str → Str → Bool
  | [], _ => true
  | _ :: _, [] => false
  | c :: cs, d :: ds => c == d && strStarts cs ds

/-- Rust `str::contains` (substring search): `strContains h n` holds when
`n` occurs contiguously inside `h`. -/
def strContains (hay needle : Str) : Bool :=
  strStarts needle hay ||
    match hay with
    | [] => false
    | _ :: t => strContains t needle

/-- The mathematical notion of (contiguous) substring, used to state the
specification's filter property. -/
def SubstringOf (needle hay : Str) : Prop := ∃ s t, hay = s ++ needle ++ t

/-! ## Data model (structs of src/main.rs) -/

/-- `enum Power { On, Off }` (serde-renamed to the strings "on"/"off"). -/
inductive Power where
  | On
  | Off
deriving DecidableEq

/-- `struct Group { id, name }` (also used for `location`). -/
structure Group where
  id : Str
  name : Str
deriving DecidableEq

/-- `struct Colour { hue: u32, saturation: f32, kelvin: u32 }`; the `f32`
field is modelled as a rational, no claim depends on float rounding. -/
structure Colour where
  hue : Nat
  saturation : Rat
  kelvin : Nat
deriving DecidableEq

/-- `struct Product { name, identifier, company, vendor_id: u8, product_id: u32 }`. -/
structure Product where
  name : Str
  identifier : Str
  company : Str
  vendor_id : Nat
  product_id : Nat
deriving DecidableEq

/-- `struct Light` as deserialized from the inventory response. -/
structure Light where
  id : Str
  uuid : Str
  label : Str
  connected : Bool
  power : Power
  color : Colour
  brightness : Rat
  group : Group
  location : Group
  product : Product
  last_seen : Str
  seconds_since_seen : Nat
deriving DecidableEq

/-- `struct SetState` — the PUT request payload; every field optional. -/
structure SetState where
  power : Option Power
  brightness : Option Rat
  color : Option Str
deriving DecidableEq

/-- `struct SetStateResult { id, label, status }`. -/
structure SetStateResult where
  id : Str
  label : Str
  status : Str
deriving DecidableEq

/-- `struct SetStateResponse { results: Option<Vec<_>>, error: Option<String> }`. -/
structure SetStateResponse where
  results : Option (List SetStateResult)
  error : Option Str
deriving DecidableEq

/-! ## Selector filter (main.rs lines 77-85) -/

/-- The filter closure of the `set` branch: a light passes when the
ASCII-lowercased selector occurs in its lowercased label or in its
lowercased group name. -/
def lightMatches (selector : Str) (l : Light) : Bool :=
  strContains (asciiLower l.label) (asciiLower selector) ||
    strContains (asciiLower l.group.name) (asciiLower selector)

/-- `lights.into_iter().filter(|l| ...)` of the selector branch. -/
def filterLights (lights : List Light) (selector : Str) : List Light :=
  lights.filter (lightMatches selector)

/-! ## JSON values and serde (de)serialization -/

/-- JSON values, numbers modelled as rationals. -/
inductive Json where
  | null
  | bool (b : Bool)
  | num (q : Rat)
  | str (s : Str)
  | arr (elems : List Json)
  | obj (fields : List (Str × Json))

/-- First value bound to a key in a JSON object field list. -/
def lookupFields : List (Str × Json) → Str → Option Json
  | [], _ => none
  | (k', v) :: rest, k => if k' = k then some v else lookupFields rest k

/-- Key lookup in a JSON object (`none` on non-objects). -/
def jLookup (j : Json) (k : Str) : Option Json :=
  match j with
  | .obj fs => lookupFields fs k
  | _ => none

/-- serde: a required struct field; missing key is a deserialization error. -/
def jField (fs : List (Str × Json)) (k : Str) : Except String Json :=
  match lookupFields fs k with
  | some v => .ok v
  | none => .error "missing field"

/-- serde: deserialize a JSON value as a string. -/
def asStr : Json → Except String Str
  | .str s => .ok s
  | _ => .error "invalid type: expected string"

/-- serde: deserialize a JSON value as a bool. -/
def asBool : Json → Except String Bool
  | .bool b => .ok b
  | _ => .error "invalid type: expected bool"

/-- serde: deserialize a JSON value as an unsigned integer below `bound`
(`bound` is 2^8 for `u8`, 2^32 for `u32`). -/
def asUInt (bound : Nat) : Json → Except String Nat
  | .num q =>
    if q.den = 1 ∧ 0 ≤ q.num ∧ q.num < (bound : Int) then .ok q.num.toNat
    else .error "invalid value: integer out of range"
  | _ => .error "invalid type: expected integer"

/-- serde: deserialize a JSON value as an `f32` (any JSON number). -/
def asF32 : Json → Except String Rat
  | .num q => .ok q
  | _ => .error "invalid type: expected number"

/-- serde `Serialize` for `Power` (variants renamed "on"/"off"). -/
def serializePower : Power → Json
  | .On => .str ( "on".toList)
  | .Off => .str ( "off".toList)

/-- serde `Deserialize` for `Power`: serde_json's externally tagged enum
deserializer accepts a unit variant either as its bare name string ("on"
or "off") or as a single-entry map from the name to the variant content,
which for a unit variant must deserialize as `()` — that is, JSON `null`
(so the object form { "on": null } also yields On).  Everything else is an
error. -/
def deserializePower (j : Json) : Except String Power :=
  match j with
  | .str s =>
    if s = ( "on".toList) then .ok .On
    else if s = ( "off".toList) then .ok .Off
    else .error "unknown variant"
  | .obj [(k, v)] =>
    if k = ( "on".toList) then
      match v with
      | .null => .ok .On
      | _ => .error "invalid type: non-unit variant content"
    else if k = ( "off".toList) then
      match v with
      | .null => .ok .Off
      | _ => .error "invalid type: non-unit variant content"
    else .error "unknown variant"
  | _ => .error "invalid type: expected string or map"

/-- serde `Serialize` for `SetState`: all three fields are emitted in
declaration order; a `None` field is serialized as JSON `null` (the struct
carries no `skip_serializing_if` attribute). -/
def serializeSetState (s : SetState) : Json :=
  .obj
    [ ( "power".toList,
        match s.power with
        | some p => serializePower p
        | none => Json.null),
      ( "brightness".toList,
        match s.brightness with
        | some b => Json.num b
        | none => Json.null),
      ( "color".toList,
        match s.color with
        | some c => Json.str c
        | none => Json.null) ]

/-- serde `Deserialize` for `Group`. -/
def deserializeGroup (j : Json) : Except String Group :=
  match j with
  | .obj fs => do
    let id ← asStr (← jField fs ( "id".toList))
    let name ← asStr (← jField fs ( "name".toList))
    pure { id := id, name := name }
  | _ => .error "invalid type: expected map"

/-- serde `Deserialize` for `Colour`. -/
def deserializeColour (j : Json) : Except String Colour :=
  match j with
  | .obj fs => do
    let hue ← asUInt (2 ^ 32) (← jField fs ( "hue".toList))
    let saturation ← asF32 (← jField fs ( "saturation".toList))
    let kelvin ← asUInt (2 ^ 32) (← jField fs ( "kelvin".toList))
    pure { hue := hue, saturation := saturation, kelvin := kelvin }
  | _ => .error "invalid type: expected map"

/-- serde `Deserialize` for `Product`. -/
def deserializeProduct (j : Json) : Except String Product :=
  match j with
  | .obj fs => do
    let name ← asStr (← jField fs ( "name".toList))
    let identifier ← asStr (← jField fs ( "identifier".toList))
    let company ← asStr (← jField fs ( "company".toList))
    let vendor_id ← asUInt (2 ^ 8) (← jField fs ( "vendor_id".toList))
    let product_id ← asUInt (2 ^ 32) (← jField fs ( "product_id".toList))
    pure { name := name, identifier := identifier, company := company,
           vendor_id := vendor_id, product_id := product_id }
  | _ => .error "invalid type: expected map"

/-- serde `Deserialize` for `Light` (all twelve fields required). -/
def deserializeLight (j : Json) : Except String Light :=
  match j with
  | .obj fs => do
    let id ← asStr (← jField fs ( "id".toList))
    let uuid ← asStr (← jField fs ( "uuid".toList))
    let label ← asStr (← jField fs ( "label".toList))
    let connected ← asBool (← jField fs ( "connected".toList))
    let power ← deserializePower (← jField fs ( "power".toList))
    let color ← deserializeColour (← jField fs ( "color".toList))
    let brightness ← asF32 (← jField fs ( "brightness".toList))
    let group ← deserializeGroup (← jField fs ( "group".toList))
    let location ← deserializeGroup (← jField fs ( "location".toList))
    let product ← deserializeProduct (← jField fs ( "product".toList))
    let last_seen ← asStr (← jField fs ( "last_seen".toList))
    let seconds_since_seen ← asUInt (2 ^ 32) (← jField fs ( "seconds_since_seen".toList))
    pure { id := id, uuid := uuid, label := label, connected := connected,
           power := power, color := color, brightness := brightness,
           group := group, location := location, product := product,
           last_seen := last_seen, seconds_since_seen := seconds_since_seen }
  | _ => .error "invalid type: expected map"

/-- serde `Deserialize` for `Vec<Light>` elements: the whole vector fails
as soon as one element fails. -/
def deserializeLightsList : List Json → Except String (List Light)
  | [] => .ok []
  | j :: js =>
    match deserializeLight j with
    | .error e => .error e
    | .ok l =>
      match deserializeLightsList js with
      | .error e => .error e
      | .ok ls => .ok (l :: ls)

/-- `.json::<Vec<Light>>()`: the body must be a JSON array of lights. -/
def deserializeLights (j : Json) : Except String (List Light) :=
  match j with
  | .arr js => deserializeLightsList js
  | _ => .error "invalid type: expected a sequence"

/-! ## Execution model of `main` -/

/-- Flags and option values of the `set` subcommand, as clap delivers
them: `on`/`off` are presence flags, the rest carry raw argument text. -/
structure SetArgs where
  onFlag : Bool
  offFlag : Bool
  colour : Option Str
  brightness : Option Str
  selector : Option Str

/-- The recognized subcommands (`set` with its arguments, or `list`). -/
inductive Cmd where
  | set (args : SetArgs)
  | list

/-- A PUT request issued by the set branch, with its JSON-serialized body's
source value. -/
inductive Request where
  | putLightState (id : Str) (body : SetState)
  | putAllState (body : SetState)
deriving DecidableEq

/-- A line (or line fragment) printed by `main`, abstracted to its
arguments rather than the exact formatted text. -/
inductive OutEvent where
  | updating (label : Str) (group : Str)
  | status (s : Str)
  | fallback (resp : SetStateResponse)
  | settingAll
  | newline
  | listLine (l : Light)
deriving DecidableEq

/-- An observable event of a run: the environment read, the inventory GET,
the clap argument parse, a PUT request, or a print. -/
inductive Event where
  | envRead
  | getLights
  | cliParse
  | put (r : Request)
  | print (o : OutEvent)
deriving DecidableEq

/-- The PUT requests occurring in a trace, in order. -/
def requestsOf (evs : List Event) : List Request :=
  evs.filterMap fun e =>
    match e with
    | .put r => some r
    | _ => none

/-- Construction of the `SetState` payload (main.rs lines 56-74): power by
on/off precedence, brightness parsed from its raw text via `parse` (the
`f32::from_str` of the host, kept abstract since the control flow never
inspects the parsed value), colour passed through verbatim.  A brightness
parse failure is propagated by `?`. -/
def buildSetState (args : SetArgs) (parse : Str → Except String Rat) :
    Except String SetState :=
  let power := if args.onFlag then some Power.On
    else if args.offFlag then some Power.Off
    else none
  match args.brightness with
  | some b =>
    match parse b with
    | .ok v => .ok { power := power, brightness := some v, color := args.colour }
    | .error e => .error e
  | none => .ok { power := power, brightness := none, color := args.colour }

/-- Response reporting (main.rs lines 103-109 and 127-133): print one
status per result when `results` is present, otherwise dump the whole
response as a fallback. -/
def reportResp (r : SetStateResponse) : List Event :=
  match r.results with
  | some results => results.map fun x => Event.print (.status x.status)
  | none => [Event.print (.fallback r)]

/-- The per-light loop of the selector branch (main.rs lines 77-112):
print the header, issue the PUT, parse the response (`resp k` is the
outcome of parsing the k-th response body; an error there is propagated by
`?` and stops the loop), report it, newline, continue. -/
def perLightLoop (state : SetState) (resp : Nat → Except String SetStateResponse) :
    List Light → Nat → List Event × Except String Unit
  | [], _ => ([], .ok ())
  | l :: rest, k =>
    let pre := [Event.print (.updating l.label l.group.name),
                Event.put (.putLightState l.id state)]
    match resp k with
    | .error e => (pre, .error e)
    | .ok r =>
      let tail := perLightLoop state resp rest (k + 1)
      (pre ++ reportResp r ++ [Event.print .newline] ++ tail.1, tail.2)

/-- The `set` branch of `main` (lines 55-136): build the payload, then
either loop over the filtered lights (selector present) or issue the
single bulk PUT (selector absent). -/
def runSet (args : SetArgs) (lights : List Light)
    (parse : Str → Except String Rat)
    (resp : Nat → Except String SetStateResponse) :
    List Event × Except String Unit :=
  match buildSetState args parse with
  | .error e => ([], .error e)
  | .ok state =>
    match args.selector with
    | some sel => perLightLoop state resp (filterLights lights sel) 0
    | none =>
      let pre := [Event.print .settingAll, Event.put (.putAllState state)]
      match resp 0 with
      | .error e => (pre, .error e)
      | .ok r => (pre ++ reportResp r ++ [Event.print .newline], .ok ())

/-- The whole of `main`: read the token from the environment, issue the
inventory GET and parse its body, then run clap's argument parse, then
dispatch on the subcommand.  `token` is the result of the environment
read, `fetchBody` the transport outcome of the GET, `cli` the outcome of
clap's parse (`none` when no subcommand was given), `parse` the host
float parser and `resp` the per-PUT response parses. -/
def runMain (token : Except String Str) (fetchBody : Except String Json)
    (cli : Except String (Option Cmd)) (parse : Str → Except String Rat)
    (resp : Nat → Except String SetStateResponse) :
    List Event × Except String Unit :=
  match token with
  | .error e => ([Event.envRead], .error e)
  | .ok _ =>
    match fetchBody with
    | .error e => ([Event.envRead, Event.getLights], .error e)
    | .ok body =>
      match deserializeLights body with
      | .error e => ([Event.envRead, Event.getLights], .error e)
      | .ok lights =>
        match cli with
        | .error e => ([Event.envRead, Event.getLights, Event.cliParse], .error e)
        | .ok cmd =>
          let base := [Event.envRead, Event.getLights, Event.cliParse]
          match cmd with
          | some (.set args) =>
            let r := runSet args lights parse resp
            (base ++ r.1, r.2)
          | some .list =>
            (base ++ lights.map fun l => Event.print (.listLine l), .ok ())
          | none => (base, .ok ())

/-! ## Concrete sample data (used to instantiate the theorems) -/

/-- A host float parser that always fails. -/
def parseErr : Str → Except String Rat := fun _ => Except.error "invalid float literal"

/-- A response oracle whose every body parses to an empty result list. -/
def respOk : Nat → Except String SetStateResponse :=
  fun _ => Except.ok { results := some [], error := none }

/-- A sample product descriptor. -/
def sampleProduct : Product :=
  { name := ( "LIFX A19".toList), identifier := ( "lifx_a19".toList),
    company := ( "LIFX".toList), vendor_id := 1, product_id := 27 }

/-- A sample light labelled "Kitchen Ceiling" in group "Kitchen". -/
def sampleLight : Light :=
  { id := ( "d073d5".toList), uuid := ( "u-1".toList),
    label := ( "Kitchen Ceiling".toList), connected := true, power := .On,
    color := { hue := 100, saturation := 1, kelvin := 3500 }, brightness := 1,
    group := { id := ( "g1".toList), name := ( "Kitchen".toList) },
    location := { id := ( "l1".toList), name := ( "Home".toList) },
    product := sampleProduct, last_seen := ( "2020-01-01".toList),
    seconds_since_seen := 0 }

/-- A sample light labelled "Lamp" in group "Bedroom". -/
def lampLight : Light :=
  { id := ( "d073d6".toList), uuid := ( "u-2".toList),
    label := ( "Lamp".toList), connected := true, power := .Off,
    color := { hue := 0, saturation := 0, kelvin := 2700 }, brightness := 1,
    group := { id := ( "g2".toList), name := ( "Bedroom".toList) },
    location := { id := ( "l1".toList), name := ( "Home".toList) },
    product := sampleProduct, last_seen := ( "2020-01-01".toList),
    seconds_since_seen := 0 }

/-- The JSON field list of a well-formed light object. -/
def lightJsonFields : List (Str × Json) :=
  [ ( ( "id".toList), Json.str ( "d073d5".toList)),
    ( ( "uuid".toList), Json.str ( "u-1".toList)),
    ( ( "label".toList), Json.str ( "Kitchen Ceiling".toList)),
    ( ( "connected".toList), Json.bool true),
    ( ( "power".toList), Json.str ( "on".toList)),
    ( ( "color".toList), Json.obj
      [ ( ( "hue".toList), Json.num 100),
        ( ( "saturation".toList), Json.num 1),
        ( ( "kelvin".toList), Json.num 3500) ]),
    ( ( "brightness".toList), Json.num 1),
    ( ( "group".toList), Json.obj
      [ ( ( "id".toList), Json.str ( "g1".toList)),
        ( ( "name".toList), Json.str ( "Kitchen".toList)) ]),
    ( ( "location".toList), Json.obj
      [ ( ( "id".toList), Json.str ( "l1".toList)),
        ( ( "name".toList), Json.str ( "Home".toList)) ]),
    ( ( "product".toList), Json.obj
      [ ( ( "name".toList), Json.str ( "LIFX A19".toList)),
        ( ( "identifier".toList), Json.str ( "lifx_a19".toList)),
        ( ( "company".toList), Json.str ( "LIFX".toList)),
        ( ( "vendor_id".toList), Json.num 1),
        ( ( "product_id".toList), Json.num 27) ]),
    ( ( "last_seen".toList), Json.str ( "2020-01-01".toList)),
    ( ( "seconds_since_seen".toList), Json.num 0) ]

/-- The same light object with the power field set to the unaccepted
string "ON". -/
def lightJsonBadPower : Json :=
  Json.obj (lightJsonFields.map fun kv =>
    if kv.1 = ( "power".toList) then (kv.1, Json.str ( "ON".toList)) else kv)

/-- The same light object with the power field set to the externally
tagged object form of the On variant. -/
def lightJsonObjPower : Json :=
  Json.obj (lightJsonFields.map fun kv =>
    if kv.1 = ( "power".toList) then
      (kv.1, Json.obj [( ( "on".toList), Json.null)])
    else kv)

/-! ## String lemmas -/

theorem strStarts_iff (n h : Str) : strStarts n h = true ↔ ∃ t, h = n ++ t := by
  induction n generalizing h with
  | nil =>
    simp [strStarts]
  | cons c cs ih =>
    cases h with
    | nil => simp [strStarts]
    | cons d ds =>
      simp only [strStarts, Bool.and_eq_true, beq_iff_eq, ih, List.cons_append,
        List.cons.injEq]
      constructor
      · rintro ⟨rfl, t, rfl⟩
        exact ⟨t, rfl, rfl⟩
      · rintro ⟨t, rfl, rfl⟩
        exact ⟨rfl, t, rfl⟩

theorem strContains_iff (h n : Str) : strContains h n = true ↔ SubstringOf n h := by
  induction h with
  | nil =>
    simp only [strContains, Bool.or_eq_true, strStarts_iff, SubstringOf]
    constructor
    · rintro (⟨t, ht⟩ | hf)
      · exact ⟨[], t, by simpa using ht⟩
      · cases hf
    · rintro ⟨s, t, hst⟩
      rcases List.append_eq_nil.mp (List.append_eq_nil.mp hst.symm).1 with ⟨rfl, rfl⟩
      exact Or.inl ⟨t, by simpa using hst⟩
  | cons c t ih =>
    simp only [strContains, Bool.or_eq_true, strStarts_iff, ih, SubstringOf]
    constructor
    · rintro (⟨u, hu⟩ | ⟨s, u, hsu⟩)
      · exact ⟨[], u, by simpa using hu⟩
      · exact ⟨c :: s, u, by simp [hsu]⟩
    · rintro ⟨s, u, hsu⟩
      cases s with
      | nil => exact Or.inl ⟨u, by simpa using hsu⟩
      | cons x s' =>
        simp only [List.cons_append, List.cons.injEq] at hsu
        exact Or.inr ⟨s', u, hsu.2⟩

/-- The empty string is a substring of every string, so the filter's
predicate accepts every light when the selector is empty. -/
theorem strContains_nil (h : Str) : strContains h [] = true := by
  cases h <;> simp [strContains, strStarts]

theorem lightMatches_nil (l : Light) : lightMatches [] l = true := by
  simp [lightMatches, asciiLower, strContains_nil]

theorem filterLights_nil (lights : List Light) : filterLights lights [] = lights := by
  simp only [filterLights]
  induction lights with
  | nil => rfl
  | cons l ls ih => simp [List.filter_cons, lightMatches_nil, ih]

/-! ## Trace lemmas -/

theorem requestsOf_append (a b : List Event) :
    requestsOf (a ++ b) = requestsOf a ++ requestsOf b := by
  simp [requestsOf, List.filterMap_append]

theorem requestsOf_reportResp (r : SetStateResponse) :
    requestsOf (reportResp r) = [] := by
  cases hr : r.results with
  | none => simp [reportResp, hr, requestsOf]
  | some rs =>
    simp only [reportResp, hr, requestsOf, List.filterMap_map]
    simp [Function.comp]

/-- The per-light loop issues exactly one PUT per light, in order, and
finishes successfully, whenever every response body parses. -/
theorem perLightLoop_spec (st : SetState) (resp : Nat → Except String SetStateResponse)
    (ls : List Light) (k : Nat) (hresp : ∀ n, ∃ r, resp n = .ok r) :
    requestsOf (perLightLoop st resp ls k).1 =
      ls.map (fun l => Request.putLightState l.id st) ∧
    (perLightLoop st resp ls k).2 = .ok () := by
  induction ls generalizing k with
  | nil => simp [perLightLoop, requestsOf]
  | cons l rest ih =>
    obtain ⟨r, hr⟩ := hresp k
    have htail := ih (k + 1)
    simp only [perLightLoop, hr]
    constructor
    · simp only [requestsOf_append, requestsOf_reportResp, htail.1]
      simp [requestsOf]
    · exact htail.2

/-- Requests of a run with a selector: one per filtered light. -/
theorem runSet_requests_some (lights : List Light) (args : SetArgs)
    (parse : Str → Except String Rat) (resp : Nat → Except String SetStateResponse)
    (st : SetState) (s : Str) (hok : buildSetState args parse = .ok st)
    (hs : args.selector = some s) (hresp : ∀ n, ∃ r, resp n = .ok r) :
    requestsOf (runSet args lights parse resp).1 =
      (filterLights lights s).map fun l => Request.putLightState l.id st := by
  simp only [runSet, hok, hs]
  exact (perLightLoop_spec st resp (filterLights lights s) 0 hresp).1

/-- Requests of a run without a selector: exactly the one bulk PUT. -/
theorem runSet_requests_none (lights : List Light) (args : SetArgs)
    (parse : Str → Except String Rat) (resp : Nat → Except String SetStateResponse)
    (st : SetState) (hok : buildSetState args parse = .ok st)
    (hs : args.selector = none) :
    requestsOf (runSet args lights parse resp).1 = [Request.putAllState st] := by
  simp only [runSet, hok, hs]
  cases hr : resp 0 with
  | error e => simp [requestsOf]
  | ok r =>
    simp only [requestsOf_append, requestsOf_reportResp]
    simp [requestsOf]

/-! ## Claim theorems -/

/-- C1: for every list of lights and every selector string, the filter used
by the set operation with a selector includes a light if and only if the
case-folded selector is a substring of the light's case-folded label or a
substring of the light's case-folded group name. -/
theorem set_selector_filter_spec (lights : List Light) (sel : Str) (l : Light) :
    l ∈ filterLights lights sel ↔
      l ∈ lights ∧
        (SubstringOf (asciiLower sel) (asciiLower l.label) ∨
         SubstringOf (asciiLower sel) (asciiLower l.group.name)) := by
  simp [filterLights, List.mem_filter, lightMatches, strContains_iff]

/-- C8: serializing `Power.On` yields the JSON string "on" and
deserializing the string "on" yields On (likewise Off and "off"); the two
maps are mutually inverse round-trips: deserializing any serializer
output returns the value, and serializing what any string deserialized to
returns that string. -/
theorem power_serde_round_trip :
    (serializePower Power.On = Json.str ( "on".toList) ∧
     serializePower Power.Off = Json.str ( "off".toList)) ∧
    (deserializePower (Json.str ( "on".toList)) = .ok Power.On ∧
     deserializePower (Json.str ( "off".toList)) = .ok Power.Off) ∧
    (∀ p : Power, deserializePower (serializePower p) = .ok p) ∧
    (∀ (s : Str) (p : Power), deserializePower (Json.str s) = .ok p →
      serializePower p = Json.str s) := by
  refine ⟨⟨rfl, rfl⟩, ⟨rfl, rfl⟩, fun p => by cases p <;> rfl, ?_⟩
  intro s p h
  simp only [deserializePower] at h
  split at h
  · next h1 =>
    subst h1
    cases h
    rfl
  · split at h
    · next h2 =>
      subst h2
      cases h
      rfl
    · cases h

/-- C8 witness: the serialize-after-deserialize direction at the concrete
string "on". -/
theorem power_serde_round_trip_witness :
    serializePower Power.On = Json.str ( "on".toList) :=
  power_serde_round_trip.2.2.2 ( "on".toList) Power.On rfl

/-- C3 counterexample: with all flags absent the constructed state has all
three fields unset, but its serialized body carries all three keys bound
to JSON `null` — the unset fields are not omitted. -/
theorem setState_nullfill_cex :
    jLookup (serializeSetState { power := none, brightness := none, color := none })
        ( "power".toList) = some Json.null ∧
    jLookup (serializeSetState { power := none, brightness := none, color := none })
        ( "brightness".toList) = some Json.null ∧
    jLookup (serializeSetState { power := none, brightness := none, color := none })
        ( "color".toList) = some Json.null :=
  ⟨rfl, rfl, rfl⟩

/-- C3 (amended): when the set subcommand is invoked with none of the on,
off, brightness or colour flags, the constructed `SetState` has all three
fields unset, and the serialized JSON request body emits each unset field
with a `null` value (it does not omit them). -/
theorem setState_all_unset_nullfilled :
    (∀ (parse : Str → Except String Rat) (sel : Option Str),
      buildSetState
          { onFlag := false, offFlag := false, colour := none,
            brightness := none, selector := sel } parse =
        .ok { power := none, brightness := none, color := none }) ∧
    serializeSetState { power := none, brightness := none, color := none } =
      Json.obj
        [ ( ( "power".toList), Json.null),
          ( ( "brightness".toList), Json.null),
          ( ( "color".toList), Json.null) ] :=
  ⟨fun _ _ => rfl, rfl⟩

/-- C4: the power field of a successfully constructed payload follows the
fixed on-before-off precedence, and the contradictory combination of both
flags raises no error: it simply yields power On. -/
theorem set_power_flag_precedence :
    (∀ (args : SetArgs) (parse : Str → Except String Rat) (st : SetState),
      buildSetState args parse = .ok st →
      st.power = if args.onFlag then some Power.On
        else if args.offFlag then some Power.Off
        else none) ∧
    (∀ (colour : Option Str) (sel : Option Str) (parse : Str → Except String Rat),
      buildSetState
          { onFlag := true, offFlag := true, colour := colour,
            brightness := none, selector := sel } parse =
        .ok { power := some Power.On, brightness := none, color := colour }) := by
  constructor
  · intro args parse st h
    cases hb : args.brightness with
    | none =>
      simp only [buildSetState, hb] at h
      cases h
      rfl
    | some b =>
      simp only [buildSetState, hb] at h
      cases hp : parse b with
      | ok v =>
        simp only [hp] at h
        cases h
        rfl
      | error e =>
        simp only [hp] at h
        cases h
  · intro colour sel parse
    rfl

/-- C4 witness: both flags present at a concrete input. -/
theorem set_power_flag_precedence_witness :
    ({ power := some Power.On, brightness := none, color := (none : Option Str) } :
        SetState).power
      = if true then some Power.On else if true then some Power.Off else none :=
  set_power_flag_precedence.1
    { onFlag := true, offFlag := true, colour := none, brightness := none,
      selector := none }
    parseErr _ rfl

/-- C2: when the payload builds, a supplied selector makes the set branch
issue one individual PUT to the per-light state endpoint for each matching
light (in filter order), while an absent selector makes it issue exactly
one bulk PUT to the all-lights endpoint. -/
theorem set_dispatch_request_shape (lights : List Light) (args : SetArgs)
    (parse : Str → Except String Rat) (resp : Nat → Except String SetStateResponse)
    (st : SetState) (hok : buildSetState args parse = .ok st) :
    (∀ s, args.selector = some s → (∀ n, ∃ r, resp n = .ok r) →
      requestsOf (runSet args lights parse resp).1 =
        (filterLights lights s).map fun l => Request.putLightState l.id st) ∧
    (args.selector = none →
      requestsOf (runSet args lights parse resp).1 = [Request.putAllState st]) :=
  ⟨fun s hs hresp => runSet_requests_some lights args parse resp st s hok hs hresp,
   fun hs => runSet_requests_none lights args parse resp st hok hs⟩

/-- C2 witness: a concrete run with selector "kitchen" over two lights of
which one matches, and a concrete run without a selector. -/
theorem set_dispatch_request_shape_witness :
    requestsOf (runSet
        { onFlag := false, offFlag := false, colour := none, brightness := none,
          selector := some ( "kitchen".toList) }
        [sampleLight, lampLight] parseErr respOk).1
      = [Request.putLightState ( "d073d5".toList)
          { power := none, brightness := none, color := none }] ∧
    requestsOf (runSet
        { onFlag := false, offFlag := false, colour := none, brightness := none,
          selector := none }
        [sampleLight, lampLight] parseErr respOk).1
      = [Request.putAllState { power := none, brightness := none, color := none }] := by
  constructor
  · have h := (set_dispatch_request_shape [sampleLight, lampLight]
      { onFlag := false, offFlag := false, colour := none, brightness := none,
        selector := some ( "kitchen".toList) }
      parseErr respOk { power := none, brightness := none, color := none } rfl).1
      ( "kitchen".toList) rfl (fun _ => ⟨_, rfl⟩)
    rw [h]
    rfl
  · exact (set_dispatch_request_shape [sampleLight, lampLight]
      { onFlag := false, offFlag := false, colour := none, brightness := none,
        selector := none }
      parseErr respOk { power := none, brightness := none, color := none } rfl).2 rfl

/-- C6: a brightness value whose parse fails aborts the whole invocation at
payload-construction time: the run produces the parse error, an empty
event trace and in particular no PUT request, whatever the lights are. -/
theorem brightness_parse_failure_aborts
    (args : SetArgs) (lights : List Light) (parse : Str → Except String Rat)
    (resp : Nat → Except String SetStateResponse) (b : Str) (e : String)
    (hb : args.brightness = some b) (hp : parse b = .error e) :
    runSet args lights parse resp = ([], .error e) ∧
    requestsOf (runSet args lights parse resp).1 = [] := by
  have hrun : runSet args lights parse resp = ([], .error e) := by
    simp [runSet, buildSetState, hb, hp]
  exact ⟨hrun, by rw [hrun]; rfl⟩

/-- C6 witness: an unparseable brightness value at a concrete input. -/
theorem brightness_parse_failure_aborts_witness :
    runSet
        { onFlag := false, offFlag := true, colour := none,
          brightness := some ( "abc".toList), selector := none }
        [sampleLight, lampLight] parseErr respOk
      = ([], .error "invalid float literal") ∧
    requestsOf (runSet
        { onFlag := false, offFlag := true, colour := none,
          brightness := some ( "abc".toList), selector := none }
        [sampleLight, lampLight] parseErr respOk).1 = [] :=
  brightness_parse_failure_aborts _ _ parseErr respOk ( "abc".toList) _ rfl rfl

/-- C7: a state-change response with `results` present is reported as one
printed status per result; with `results` absent the full raw response is
printed as a fallback; and whenever the payload builds and every response
body parses, the set branch finishes with the success outcome (exit 0)
regardless of what the responses report. -/
theorem response_reporting_policy :
    (∀ (r : SetStateResponse) (rs : List SetStateResult), r.results = some rs →
      reportResp r = rs.map fun x => Event.print (.status x.status)) ∧
    (∀ r : SetStateResponse, r.results = none →
      reportResp r = [Event.print (.fallback r)]) ∧
    (∀ (args : SetArgs) (lights : List Light) (parse : Str → Except String Rat)
        (resp : Nat → Except String SetStateResponse) (st : SetState),
      buildSetState args parse = .ok st →
      (∀ n, ∃ x, resp n = .ok x) →
      (runSet args lights parse resp).2 = .ok ()) := by
  refine ⟨?_, ?_, ?_⟩
  · intro r rs h
    simp [reportResp, h]
  · intro r h
    simp [reportResp, h]
  · intro args lights parse resp st hok hresp
    simp only [runSet, hok]
    cases hs : args.selector with
    | some sel => exact (perLightLoop_spec st resp (filterLights lights sel) 0 hresp).2
    | none =>
      obtain ⟨x, hx⟩ := hresp 0
      simp [hx]

/-- C7 witness: a response carrying one "timed_out" result, a response
carrying only an error string, and a concrete run exiting successfully. -/
theorem response_reporting_policy_witness :
    reportResp
        { results := some [ { id := ( "d073d5".toList),
                              label := ( "Kitchen Ceiling".toList),
                              status := ( "timed_out".toList) } ],
          error := none }
      = [Event.print (.status ( "timed_out".toList))] ∧
    reportResp { results := none, error := some ( "no matching lights".toList) }
      = [Event.print (.fallback
          { results := none, error := some ( "no matching lights".toList) })] ∧
    (runSet
        { onFlag := true, offFlag := false, colour := none, brightness := none,
          selector := some ( "kitchen".toList) }
        [sampleLight, lampLight] parseErr respOk).2 = .ok () :=
  ⟨response_reporting_policy.1 _
     [ { id := ( "d073d5".toList), label := ( "Kitchen Ceiling".toList),
         status := ( "timed_out".toList) } ] rfl,
   response_reporting_policy.2.1 _ rfl,
   response_reporting_policy.2.2 _ _ parseErr respOk
     { power := some Power.On, brightness := none, color := none } rfl
     (fun _ => ⟨_, rfl⟩)⟩

/-- C9: a supplied empty selector passes the substring filter for every
light (the empty string is a substring of every label), so the run takes
the per-light path and issues one individual PUT per fetched light — not
the single bulk request. -/
theorem empty_selector_per_light
    (lights : List Light) (args : SetArgs) (parse : Str → Except String Rat)
    (resp : Nat → Except String SetStateResponse) (st : SetState)
    (hsel : args.selector = some [])
    (hok : buildSetState args parse = .ok st)
    (hresp : ∀ n, ∃ r, resp n = .ok r) :
    (∀ l, lightMatches [] l = true) ∧
    requestsOf (runSet args lights parse resp).1 =
      lights.map fun l => Request.putLightState l.id st := by
  refine ⟨lightMatches_nil, ?_⟩
  have h := runSet_requests_some lights args parse resp st [] hok hsel hresp
  rw [h, filterLights_nil]

/-- C9 witness: empty selector over two concrete lights issues two
individual PUTs. -/
theorem empty_selector_per_light_witness :
    requestsOf (runSet
        { onFlag := false, offFlag := false, colour := none, brightness := none,
          selector := some [] }
        [sampleLight, lampLight] parseErr respOk).1
      = [Request.putLightState ( "d073d5".toList)
           { power := none, brightness := none, color := none },
         Request.putLightState ( "d073d6".toList)
           { power := none, brightness := none, color := none }] := by
  have h := (empty_selector_per_light [sampleLight, lampLight]
    { onFlag := false, offFlag := false, colour := none, brightness := none,
      selector := some [] }
    parseErr respOk { power := none, brightness := none, color := none }
    rfl rfl (fun _ => ⟨_, rfl⟩)).2
  rw [h]
  rfl

/-- C5 counterexample: with a failing argument parse (for example an
unrecognized subcommand) and a healthy environment, the run still contains
the inventory GET in its trace before the argument-parse step — the GET is
issued even though the arguments never parse, contradicting the claim that
the parse failure exits before any GET. -/
theorem fetch_precedes_cli_parse_cex :
    runMain (.ok ( "tok".toList)) (.ok (Json.arr [])) (.error "bad subcommand")
        parseErr respOk
      = ([Event.envRead, Event.getLights, Event.cliParse], .error "bad subcommand") ∧
    Event.getLights ∈ (runMain (.ok ( "tok".toList)) (.ok (Json.arr []))
        (.error "bad subcommand") parseErr respOk).1 :=
  ⟨rfl, by decide⟩

/-- C5 (amended): the inventory fetch happens before CLI argument parsing:
an argument parse failure still exits non-zero, but only after the GET to
the lights endpoint has been issued (trace: environment read, inventory
GET, argument parse, then the error). -/
theorem cli_parse_failure_after_fetch
    (tok : Str) (body : Json) (lights : List Light) (e : String)
    (parse : Str → Except String Rat) (resp : Nat → Except String SetStateResponse)
    (hbody : deserializeLights body = .ok lights) :
    runMain (.ok tok) (.ok body) (.error e) parse resp
      = ([Event.envRead, Event.getLights, Event.cliParse], .error e) ∧
    Event.getLights ∈ (runMain (.ok tok) (.ok body) (.error e) parse resp).1 := by
  have h : runMain (.ok tok) (.ok body) (.error e) parse resp
      = ([Event.envRead, Event.getLights, Event.cliParse], .error e) := by
    simp [runMain, hbody]
  refine ⟨h, ?_⟩
  rw [h]
  simp

/-- C5 witness: a concrete failing argument parse after a successful
empty-inventory fetch. -/
theorem cli_parse_failure_after_fetch_witness :
    runMain (.ok ( "tok".toList)) (.ok (Json.arr [])) (.error "usage") parseErr respOk
      = ([Event.envRead, Event.getLights, Event.cliParse], .error "usage") ∧
    Event.getLights ∈ (runMain (.ok ( "tok".toList)) (.ok (Json.arr []))
        (.error "usage") parseErr respOk).1 :=
  cli_parse_failure_after_fetch ( "tok".toList) (Json.arr []) [] "usage"
    parseErr respOk rfl

/-- If the whole lights vector parses, every element parsed. -/
theorem lightsList_all_ok (js : List Json) (ls : List Light)
    (h : deserializeLightsList js = .ok ls) :
    ∀ j ∈ js, ∃ l, deserializeLight j = .ok l := by
  induction js generalizing ls with
  | nil =>
    intro j hj
    cases hj
  | cons a as ih =>
    intro j hj
    simp only [deserializeLightsList] at h
    cases ha : deserializeLight a with
    | error e =>
      simp only [ha] at h
      exact Except.noConfusion h
    | ok l =>
      simp only [ha] at h
      cases hj with
      | head => exact ⟨l, ha⟩
      | tail _ hmem =>
        cases hrest : deserializeLightsList as with
        | error e =>
          simp only [hrest] at h
          exact Except.noConfusion h
        | ok ls2 => exact ih ls2 hrest j hmem

/-- C10 counterexample: the externally tagged object form of the On
variant is not one of the strings "on"/"off", yet the program parses it
as power On: a whole light carrying it deserializes successfully, and a
run whose inventory body contains it proceeds normally instead of
aborting fatally. -/
theorem power_object_form_accepted_cex :
    deserializePower (Json.obj [( ( "on".toList), Json.null)]) = .ok Power.On ∧
    deserializeLights (Json.arr [lightJsonObjPower]) = .ok [sampleLight] ∧
    runMain (.ok ( "tok".toList)) (.ok (Json.arr [lightJsonObjPower])) (.ok none)
        parseErr respOk
      = ([Event.envRead, Event.getLights, Event.cliParse], .ok ()) :=
  ⟨rfl, rfl, rfl⟩

/-- C10 (amended): deserializing a power field accepts exactly the
strings "on" and "off" and the externally tagged single-entry object
forms binding "on" or "off" to null; any other value (for example the
string "ON" or an empty string) fails, one failing element makes the
whole lights vector fail, and a failing inventory-body parse makes the
run abort with the error right after the GET, before argument parsing or
any PUT. -/
theorem power_field_strict_parse :
    (∀ (j : Json) (p : Power),
      deserializePower j = .ok p ↔
        ((j = Json.str ( "on".toList) ∧ p = Power.On) ∨
         (j = Json.str ( "off".toList) ∧ p = Power.Off) ∨
         (j = Json.obj [( ( "on".toList), Json.null)] ∧ p = Power.On) ∨
         (j = Json.obj [( ( "off".toList), Json.null)] ∧ p = Power.Off))) ∧
    (∀ (js : List Json) (j : Json), j ∈ js →
      (∀ l, deserializeLight j ≠ .ok l) →
      ∀ ls, deserializeLights (Json.arr js) ≠ .ok ls) ∧
    (∀ (tok : Str) (body : Json) (cli : Except String (Option Cmd))
        (parse : Str → Except String Rat)
        (resp : Nat → Except String SetStateResponse) (e : String),
      deserializeLights body = .error e →
      runMain (.ok tok) (.ok body) cli parse resp
        = ([Event.envRead, Event.getLights], .error e)) := by
  refine ⟨?_, ?_, ?_⟩
  · intro j p
    constructor
    · intro h
      cases j with
      | null => cases h
      | bool b => cases h
      | num q => cases h
      | arr es => cases h
      | str s =>
        simp only [deserializePower] at h
        split at h
        · next h1 =>
          cases h
          exact Or.inl ⟨by rw [h1], rfl⟩
        · split at h
          · next h2 =>
            cases h
            exact Or.inr (Or.inl ⟨by rw [h2], rfl⟩)
          · cases h
      | obj fs =>
        cases fs with
        | nil => cases h
        | cons kv rest =>
          cases rest with
          | cons kv2 rest2 => cases h
          | nil =>
            obtain ⟨k, v⟩ := kv
            simp only [deserializePower] at h
            split at h
            · next h1 =>
              cases v with
              | null =>
                cases h
                exact Or.inr (Or.inr (Or.inl ⟨by rw [h1], rfl⟩))
              | bool b => cases h
              | num q => cases h
              | str s => cases h
              | arr es => cases h
              | obj fs2 => cases h
            · split at h
              · next h2 =>
                cases v with
                | null =>
                  cases h
                  exact Or.inr (Or.inr (Or.inr ⟨by rw [h2], rfl⟩))
                | bool b => cases h
                | num q => cases h
                | str s => cases h
                | arr es => cases h
                | obj fs2 => cases h
              · cases h
    · rintro (⟨rfl, rfl⟩ | ⟨rfl, rfl⟩ | ⟨rfl, rfl⟩ | ⟨rfl, rfl⟩) <;> rfl
  · intro js j hj hbad ls hok
    simp only [deserializeLights] at hok
    obtain ⟨l, hl⟩ := lightsList_all_ok js ls hok j hj
    exact hbad l hl
  · intro tok body cli parse resp e he
    simp [runMain, he]

/-- C10 witness: a light object whose power is "ON" fails the whole
vector, and a non-array inventory body aborts the run after the GET. -/
theorem power_field_strict_parse_witness :
    (∀ ls, deserializeLights (Json.arr [lightJsonBadPower]) ≠ Except.ok ls) ∧
    runMain (.ok ( "tok".toList)) (.ok (Json.obj [])) (.ok none) parseErr respOk
      = ([Event.envRead, Event.getLights], .error "invalid type: expected a sequence") :=
  ⟨fun ls => power_field_strict_parse.2.1 [lightJsonBadPower] lightJsonBadPower
      (by simp)
      (fun l h => by
        rw [show deserializeLight lightJsonBadPower
            = Except.error "unknown variant" from rfl] at h
        cases h) ls,
   power_field_strict_parse.2.2 ( "tok".toList) (Json.obj []) (.ok none)
     parseErr respOk _ rfl⟩

end Lifx
